import Mathlib

/-!
Shallow embedding of `src/nordigen_account/__init__.py` (package
`nordigen_account`): token acquisition (`create_nordigen_client`), the
`BankAccount` class and the `BankAccountManager` class, together with the
custom exception type `NordigenAPIError`.

Modelling conventions:
* JSON-like Python values (parsed API responses) are the inductive `JsonVal`;
  Python dicts are association lists, Python floats are rationals.
* Python exceptions are the inductive `PyExc`; a function that can raise
  returns `Except PyExc α`.  `try/except` blocks become explicit matches on
  the error constructor, in the textual order of the `except` clauses.
* Methods that mutate `self` return the final object state *paired with* the
  exception raised, if any (`α × Option PyExc`), so that partial mutation
  before a raise is observable, exactly as in Python.
* The external `NordigenClient` (the `nordigen` package) is an oracle
  `NordigenEnv`: one field per remote call the source performs.
-/

/-- Parsed JSON values, as produced by `response.json()` in Python. -/
inductive JsonVal where
  | null : JsonVal
  | bool : Bool → JsonVal
  | num : ℚ → JsonVal
  | str : String → JsonVal
  | arr : List JsonVal → JsonVal
  | obj : List (String × JsonVal) → JsonVal

/-- Lookup of a key in an association list (Python `dict` access). -/
def lookupField (fs : List (String × JsonVal)) (k : String) : Option JsonVal :=
  match fs with
  | [] => none
  | (k2, v) :: rest => if k2 = k then some v else lookupField rest k

mutual

/-- Python `==` on JSON values: numbers compare numerically, `True`/`False`
compare as `1`/`0` against numbers, containers compare elementwise. -/
def pyEq : JsonVal → JsonVal → Bool
  | .null, .null => true
  | .bool a, .bool b => a == b
  | .bool a, .num q => (if a then (1 : ℚ) else 0) == q
  | .num q, .bool a => q == (if a then (1 : ℚ) else 0)
  | .num a, .num b => a == b
  | .str a, .str b => a == b
  | .arr a, .arr b => pyEqList a b
  | .obj a, .obj b => pyEqFields a b
  | _, _ => false

def pyEqList : List JsonVal → List JsonVal → Bool
  | [], [] => true
  | a :: as1, b :: bs1 => pyEq a b && pyEqList as1 bs1
  | _, _ => false

def pyEqFields : List (String × JsonVal) → List (String × JsonVal) → Bool
  | [], [] => true
  | (k1, a) :: as1, (k2, b) :: bs1 => k1 == k2 && pyEq a b && pyEqFields as1 bs1
  | _, _ => false

end

/-- Python `==` between an optional value (such as `dict.get(key)`) and a
value; `None == v` is `False` for every JSON value `v`. -/
def optPyEq (o : Option JsonVal) (v : JsonVal) : Bool :=
  match o with
  | some x => pyEq x v
  | none => false

/-- Python truthiness: `None`, `False`, `0`, `""`, `[]`, `{}` are falsy. -/
def pyTruthy : JsonVal → Bool
  | .null => false
  | .bool b => b
  | .num q => !(q == 0)
  | .str s => !s.isEmpty
  | .arr xs => !xs.isEmpty
  | .obj fs => !fs.isEmpty

mutual

/-- Python `repr`/`str` of a JSON value (used in f-string error messages). -/
def JsonVal.pyRepr : JsonVal → String
  | .null => "None"
  | .bool b => if b then "True" else "False"
  | .num q => if q.den = 1 then toString q.num else toString q
  | .str s => "\x27" ++ s ++ "\x27"
  | .arr xs => "[" ++ pyReprList xs ++ "]"
  | .obj fs => "\x7b" ++ pyReprFields fs ++ "\x7d"

def pyReprList : List JsonVal → String
  | [] => ""
  | [x] => x.pyRepr
  | x :: rest => x.pyRepr ++ ", " ++ pyReprList rest

def pyReprFields : List (String × JsonVal) → String
  | [] => ""
  | [(k, v)] => "\x27" ++ k ++ "\x27: " ++ v.pyRepr
  | (k, v) :: rest => "\x27" ++ k ++ "\x27: " ++ v.pyRepr ++ ", " ++ pyReprFields rest

end

/-- The custom exception class of the source (`NordigenAPIError`): a message
plus optional structured context. -/
structure NordigenAPIError where
  message : String
  status_code : Option JsonVal := none
  response_body : Option JsonVal := none

/-- Python exceptions that flow through this module: `HTTPError` from the
`requests` package (carrying the parsed JSON body of the error response),
`KeyError`, `ValueError` (from `float`), the module's own `NordigenAPIError`,
and a catch-all for other `Exception` subclasses (`AttributeError`,
`TypeError`, ...) identified by message. -/
inductive PyExc where
  | httpError : JsonVal → PyExc
  | keyError : String → PyExc
  | valueError : String → PyExc
  | nordigenError : NordigenAPIError → PyExc
  | other : String → PyExc

/-- Python `str(e)` for the exceptions above, as used in f-string messages. -/
def PyExc.pyStr : PyExc → String
  | .httpError _ => "HTTPError"
  | .keyError k => "\x27" ++ k ++ "\x27"
  | .valueError m => m
  | .nordigenError e => e.message
  | .other m => m

/-- Python `d.get(k)` (no default): `None` when the key is absent; raises
`AttributeError` when the receiver is not a dict. -/
def pyGet (v : JsonVal) (k : String) : Except PyExc (Option JsonVal) :=
  match v with
  | .obj fs => .ok (lookupField fs k)
  | _ => .error (.other ("AttributeError: object has no attribute " ++ "\x27" ++ "get" ++ "\x27 (key " ++ "\x27" ++ k ++ "\x27)"))

/-- Python `d.get(k, default)`: the stored value, or `default` when the key
is absent; raises `AttributeError` when the receiver is not a dict. -/
def pyGetD (v : JsonVal) (k : String) (default : JsonVal) : Except PyExc JsonVal :=
  match v with
  | .obj fs => .ok ((lookupField fs k).getD default)
  | _ => .error (.other ("AttributeError: object has no attribute " ++ "\x27" ++ "get" ++ "\x27 (key " ++ "\x27" ++ k ++ "\x27)"))

/-- Python `d[k]` subscription: raises `KeyError` when the key is absent and
`TypeError` when the receiver is not a dict. -/
def pySubscript (v : JsonVal) (k : String) : Except PyExc JsonVal :=
  match v with
  | .obj fs =>
    match lookupField fs k with
    | some x => .ok x
    | none => .error (.keyError k)
  | _ => .error (.other ("TypeError: object is not subscriptable (key " ++ "\x27" ++ k ++ "\x27)"))

/-- Python `for x in v`: lists yield their elements, strings their
characters, dicts their keys; other values raise `TypeError`. -/
def pyIter : JsonVal → Except PyExc (List JsonVal)
  | .arr xs => .ok xs
  | .str s => .ok (s.toList.map (fun c => .str (String.mk [c])))
  | .obj fs => .ok (fs.map (fun p => .str p.1))
  | _ => .error (.other "TypeError: object is not iterable")

/-- Digits of a decimal string as a natural number; `none` when empty or a
non-digit appears. -/
def digitsToNat (cs : List Char) : Option Nat :=
  match cs with
  | [] => none
  | _ =>
    cs.foldl
      (fun acc c =>
        match acc with
        | none => none
        | some n => if c.isDigit then some (n * 10 + (c.toNat - 48)) else none)
      (some 0)

/-- Surrounding spaces stripped, as Python `float` strips whitespace. -/
def trimSpaces (cs : List Char) : List Char :=
  ((cs.dropWhile (fun c => c = ' ')).reverse.dropWhile (fun c => c = ' ')).reverse

/-- Characters split at each `'.'` (like `str.split`, keeping empty parts). -/
def splitDot (cs : List Char) : List (List Char) :=
  match cs with
  | [] => [[]]
  | c :: rest =>
    let r := splitDot rest
    if c = '.' then [] :: r
    else
      match r with
      | h :: t => (c :: h) :: t
      | [] => [[c]]

/-- Model of Python `float(s)` on strings: optional surrounding spaces and
sign, then digits with an optional decimal point (the forms the balance API
produces); `none` on anything else, matching `ValueError`. -/
def parseDecimal (s : String) : Option ℚ :=
  let t := trimSpaces s.data
  let core : List Char × Bool :=
    match t with
    | '-' :: rest => (rest, true)
    | '+' :: rest => (rest, false)
    | _ => (t, false)
  let signed : Nat → Int := fun n => if core.2 then -(n : Int) else (n : Int)
  match splitDot core.1 with
  | [ip] => (digitsToNat ip).map (fun n => mkRat (signed n) 1)
  | [ip, fp] =>
    if ip.isEmpty && fp.isEmpty then none
    else
      let ipN := if ip.isEmpty then some 0 else digitsToNat ip
      let fpN := if fp.isEmpty then some 0 else digitsToNat fp
      match ipN, fpN with
      | some i, some f => some (mkRat (signed (i * 10 ^ fp.length + f)) (10 ^ fp.length))
      | _, _ => none
  | _ => none

/-- Python `float(v)`: numbers pass through, booleans coerce to `1`/`0`,
strings are parsed (`ValueError` on failure), everything else raises
`TypeError`. -/
def pyFloat : JsonVal → Except PyExc ℚ
  | .num q => .ok q
  | .bool b => .ok (if b then 1 else 0)
  | .str s =>
    match parseDecimal s with
    | some q => .ok q
    | none => .error (.valueError ("could not convert string to float: " ++ "\x27" ++ s ++ "\x27"))
  | _ => .error (.other "TypeError: float() argument must be a string or a real number")

/-- The state of a `NordigenClient` instance as this module uses it:
credentials plus the bearer token assigned by `create_nordigen_client`. -/
structure NordigenClient where
  secret_id : String
  secret_key : String
  token : Option JsonVal

/-- Oracle for the remote calls performed through the external `nordigen`
client: each field models one API method, returning the parsed JSON response
or raising an exception. -/
structure NordigenEnv where
  generate_token : Except PyExc JsonVal
  exchange_token : String → Except PyExc JsonVal
  get_details : JsonVal → Except PyExc JsonVal
  get_balances : JsonVal → Except PyExc JsonVal
  get_requisition_by_id : String → Except PyExc JsonVal

/-- Shared shape of the source's `except HTTPError ... except Exception ...`
pairs: an `HTTPError` is turned into a `NordigenAPIError` carrying
`response.json().get("status_code")` and the body (note the handler itself
re-raises when the body is not a dict, exactly as `.get` would in Python);
every other exception is wrapped with message only. -/
def wrapExc (httpMsg unkMsg : String) (e : PyExc) : PyExc :=
  match e with
  | .httpError body =>
    match pyGet body "status_code" with
    | .ok status_code =>
      .nordigenError
        { message := httpMsg ++ body.pyRepr
          status_code := status_code
          response_body := some body }
    | .error e2 => e2
  | e =>
    .nordigenError
      { message := unkMsg ++ e.pyStr, status_code := none, response_body := none }

/-- Body of the `if not refresh_token` branch of `create_nordigen_client`:
`client.generate_token()` followed by capturing `token_data["refresh"]`. -/
def generateTokenPath (env : NordigenEnv) : Except PyExc (JsonVal × Option JsonVal) := do
  let token_data ← env.generate_token
  let new_refresh_token ← pySubscript token_data "refresh"
  pure (token_data, some new_refresh_token)

/-- The token-obtaining part of `create_nordigen_client` (lines 28-49 of the
source): either generate a fresh pair, or exchange the refresh token with the
inner `try/except HTTPError` fallback on status 401.  Returns `token_data`
and the captured new refresh token. -/
def tokenAttempt (env : NordigenEnv) (refresh_token : Option String) : Except PyExc (JsonVal × Option JsonVal) :=
  if !(pyTruthy (.str (refresh_token.getD ""))) then
    generateTokenPath env
  else
    match env.exchange_token (refresh_token.getD "") with
    | .ok token_data => .ok (token_data, none)
    | .error (.httpError body) => do
      let status_code ← pyGet body "status_code"
      if optPyEq status_code (.num 401) then
        generateTokenPath env
      else
        .error (.nordigenError
          { message := "Error exchanging token: " ++ body.pyRepr
            status_code := status_code
            response_body := some body })
    | .error e => .error e

/-- Embedding of `create_nordigen_client`: runs `tokenAttempt`, extracts
`token_data["access"]`, assigns it to the client, and applies the outer
`except KeyError / except HTTPError / except Exception` clauses in order. -/
def create_nordigen_client (env : NordigenEnv) (secret_id : String) (secret_key : String)
    (refresh_token : Option String) : Except PyExc (NordigenClient × Option JsonVal) :=
  let client : NordigenClient := { secret_id := secret_id, secret_key := secret_key, token := none }
  let attempt : Except PyExc (NordigenClient × Option JsonVal) := do
    let r ← tokenAttempt env refresh_token
    let access_token ← pySubscript r.1 "access"
    pure ({ client with token := some access_token }, r.2)
  match attempt with
  | .ok r => .ok r
  | .error (.keyError k) =>
    .error (.nordigenError
      { message := "Missing expected key in token response: " ++ PyExc.pyStr (.keyError k)
        status_code := none
        response_body := none })
  | .error (.httpError body) =>
    match pyGet body "status_code" with
    | .ok status_code =>
      .error (.nordigenError
        { message := "Error generating token: " ++ body.pyRepr
          status_code := status_code
          response_body := some body })
    | .error e2 => .error e2
  | .error e =>
    .error (.nordigenError
      { message := "Unexpected error obtaining access token: " ++ e.pyStr
        status_code := none
        response_body := none })

/-- One normalized balance record, as built in the loop of
`update_balance_data`: the Python dict
`\x7b"balanceType": _, "amount": float _, "currency": _\x7d`. -/
structure BalanceRecord where
  balanceType : JsonVal
  amount : ℚ
  currency : JsonVal

/-- The mutable state of a `BankAccount` instance (`_account_id`, `name`,
`status`, `currency`, `balances`); the three descriptive fields start as
`None`. -/
structure BankAccount where
  account_id : JsonVal
  name : Option JsonVal
  status : Option JsonVal
  currency : Option JsonVal
  balances : List BalanceRecord

/-- The field extraction inside the `try` of `update_account_data`: fetch
details, take the nested `account` dict (default `\x7b\x7d`), and read
`name`, `status`, `currency` each with default `"Unknown"`.  The three
`.get` calls share their only failure condition (receiver not a dict), so no
partial assignment of the fields is possible. -/
def detailsExtract (env : NordigenEnv) (a : BankAccount) : Except PyExc (JsonVal × JsonVal × JsonVal) := do
  let details_response ← env.get_details a.account_id
  let account_details ← pyGetD details_response "account" (.obj [])
  let nm ← pyGetD account_details "name" (.str "Unknown")
  let st ← pyGetD account_details "status" (.str "Unknown")
  let cur ← pyGetD account_details "currency" (.str "Unknown")
  pure (nm, st, cur)

/-- Embedding of `BankAccount.update_account_data`: on success all three
fields are overwritten; on any exception the state is unchanged and the
exception is wrapped by the two `except` clauses. -/
def BankAccount.update_account_data (env : NordigenEnv) (a : BankAccount) : BankAccount × Option PyExc :=
  match detailsExtract env a with
  | .ok (nm, st, cur) =>
    ({ a with name := some nm, status := some st, currency := some cur }, none)
  | .error e =>
    (a, some (wrapExc "Error retrieving account details: "
      "Unexpected error while fetching account details: " e))

/-- One iteration of the loop in `update_balance_data`: build the normalized
dict for one entry of the `balances` array.  The dict literal evaluates
`balanceType`, then `float(... .get("amount", 0.00))`, then the currency, so
a failing `float` aborts the whole entry. -/
def normalizeBalance (balance : JsonVal) : Except PyExc BalanceRecord :=
  match pyGetD balance "balanceType" (.str "Unknown") with
  | .error e => .error e
  | .ok balance_type =>
    match pyGetD balance "balanceAmount" (.obj []) with
    | .error e => .error e
    | .ok balance_amount =>
      match pyGetD balance_amount "amount" (.num 0) with
      | .error e => .error e
      | .ok amount_raw =>
        match pyFloat amount_raw with
        | .error e => .error e
        | .ok amount =>
          match pyGetD balance "balanceAmount" (.obj []) with
          | .error e => .error e
          | .ok balance_amount2 =>
            match pyGetD balance_amount2 "currency" (.str "Unknown") with
            | .error e => .error e
            | .ok cur => .ok { balanceType := balance_type, amount := amount, currency := cur }

/-- The `for balance in account_balances` loop: append each normalized entry
to the accumulated list; on an exception the entries appended so far stay. -/
def processBalances (entries : List JsonVal) (acc : List BalanceRecord) : List BalanceRecord × Option PyExc :=
  match entries with
  | [] => (acc, none)
  | b :: rest =>
    match normalizeBalance b with
    | .ok r => processBalances rest (acc ++ [r])
    | .error e => (acc, some e)

/-- Embedding of `BankAccount.update_balance_data`: fetch, then clear
`balances` (`self.balances = []` runs only after a successful fetch), then
read the `balances` array (default `[]`) and run the loop; exceptions are
wrapped by the two `except` clauses and leave the partial list in place. -/
def BankAccount.update_balance_data (env : NordigenEnv) (a : BankAccount) : BankAccount × Option PyExc :=
  match env.get_balances a.account_id with
  | .error e =>
    (a, some (wrapExc "Error retrieving account balances: "
      "Unexpected error while fetching account balances: " e))
  | .ok balances_response =>
    let a1 := { a with balances := ([] : List BalanceRecord) }
    match pyGetD balances_response "balances" (.arr []) with
    | .error e =>
      (a1, some (wrapExc "Error retrieving account balances: "
        "Unexpected error while fetching account balances: " e))
    | .ok account_balances =>
      match pyIter account_balances with
      | .error e =>
        (a1, some (wrapExc "Error retrieving account balances: "
          "Unexpected error while fetching account balances: " e))
      | .ok entries =>
        match processBalances entries [] with
        | (recs, none) => ({ a1 with balances := recs }, none)
        | (recs, some e) =>
          ({ a1 with balances := recs },
            some (wrapExc "Error retrieving account balances: "
              "Unexpected error while fetching account balances: " e))

/-- Embedding of `BankAccount.__init__`: placeholders are `None`/`[]`; when
`fetch_data` is set, `update_account_data` then `update_balance_data` run,
and an exception from either aborts construction there. -/
def BankAccount.init (env : NordigenEnv) (account_id : JsonVal) (fetch_data : Bool) : BankAccount × Option PyExc :=
  let a : BankAccount :=
    { account_id := account_id, name := none, status := none, currency := none, balances := [] }
  if fetch_data then
    match BankAccount.update_account_data env a with
    | (a1, some e) => (a1, some e)
    | (a1, none) => BankAccount.update_balance_data env a1
  else
    (a, none)

/-- The mutable state of a `BankAccountManager` instance. -/
structure BankAccountManager where
  requisition_id : String
  accounts : List BankAccount
  institution_id : Option JsonVal
  reference : Option JsonVal

/-- The two `except` clauses of `BankAccountManager._initialize_accounts`.
Note that a `NordigenAPIError` raised inside the `try` (the 428 and 410
domain failures, or one bubbling out of `BankAccount.__init__`) is caught by
the final `except Exception` clause and re-wrapped with message only. -/
def wrapReqExc (e : PyExc) : PyExc :=
  wrapExc "Error fetching requisition details: "
    "Unexpected error during requisition initialization: " e

/-- The `for account_id in account_ids` loop of `_initialize_accounts`:
construct a `BankAccount` per id and append it; a failing construction
appends nothing and aborts the loop. -/
def initAccountsLoop (env : NordigenEnv) (fetch_data : Bool) (ids : List JsonVal) (acc : List BankAccount) : List BankAccount × Option PyExc :=
  match ids with
  | [] => (acc, none)
  | account_id :: rest =>
    match BankAccount.init env account_id fetch_data with
    | (a, none) => initAccountsLoop env fetch_data rest (acc ++ [a])
    | (_, some e) => (acc, some e)

/-- Embedding of `BankAccountManager._initialize_accounts`: fetch the
requisition, store `institution_id` and `reference`, check the `"EX"` status
sentinel (raising a 428 `NordigenAPIError`), check the `accounts` list for
truthiness (raising a 410 `NordigenAPIError`), then build the accounts; all
exceptions pass through `wrapReqExc`, as the raises sit inside the `try`. -/
def BankAccountManager.initialize_accounts (env : NordigenEnv) (m : BankAccountManager) (fetch_data : Bool) : BankAccountManager × Option PyExc :=
  match env.get_requisition_by_id m.requisition_id with
  | .error e => (m, some (wrapReqExc e))
  | .ok accounts_response =>
    match pyGet accounts_response "institution_id" with
    | .error e => (m, some (wrapReqExc e))
    | .ok inst =>
      let m1 := { m with institution_id := inst }
      match pyGet accounts_response "reference" with
      | .error e => (m1, some (wrapReqExc e))
      | .ok refv =>
        let m2 := { m1 with reference := refv }
        match pyGet accounts_response "status" with
        | .error e => (m2, some (wrapReqExc e))
        | .ok account_status =>
          if optPyEq account_status (.str "EX") then
            (m2, some (wrapReqExc (.nordigenError
              { message := "Access to accounts has expired as set in End User Agreement. Connect the accounts again with a new requisition."
                status_code := some (.num 428)
                response_body := some accounts_response })))
          else
            match pyGetD accounts_response "accounts" (.arr []) with
            | .error e => (m2, some (wrapReqExc e))
            | .ok account_ids =>
              if !(pyTruthy account_ids) then
                (m2, some (wrapReqExc (.nordigenError
                  { message := "No accounts found for the given requisition ID. Ensure that bank authorization has been completed."
                    status_code := some (.num 410)
                    response_body := some accounts_response })))
              else
                match pyIter account_ids with
                | .error e => (m2, some (wrapReqExc e))
                | .ok ids =>
                  match initAccountsLoop env fetch_data ids m2.accounts with
                  | (accts, none) => ({ m2 with accounts := accts }, none)
                  | (accts, some e) => ({ m2 with accounts := accts }, some (wrapReqExc e))

/-- Embedding of `BankAccountManager.__init__`: fresh empty state, then
`_initialize_accounts`. -/
def BankAccountManager.init (env : NordigenEnv) (requisition_id : String) (fetch_data : Bool) : BankAccountManager × Option PyExc :=
  BankAccountManager.initialize_accounts env
    { requisition_id := requisition_id, accounts := [], institution_id := none, reference := none }
    fetch_data

/-! Concrete environments and objects used to evaluate the embedding at
specific inputs.  `envBase` fails every remote call; the others override
single oracles. -/

/-- Base oracle whose every remote call raises a generic exception. -/
def envBase : NordigenEnv :=
  { generate_token := .error (.other "unreachable")
    exchange_token := fun _ => .error (.other "unreachable")
    get_details := fun _ => .error (.other "unreachable")
    get_balances := fun _ => .error (.other "unreachable")
    get_requisition_by_id := fun _ => .error (.other "unreachable") }

/-- Oracle returning a requisition record whose `status` is the expiry
sentinel `"EX"`. -/
def envExpiredReq : NordigenEnv :=
  { envBase with get_requisition_by_id := fun _ => .ok (.obj [("status", .str "EX")]) }

/-- Oracle returning a requisition record with an empty `accounts` list. -/
def envEmptyAccountsReq : NordigenEnv :=
  { envBase with
    get_requisition_by_id := fun _ =>
      .ok (.obj [("institution_id", .str "inst"), ("reference", .str "r"),
                 ("status", .str "LN"), ("accounts", .arr [])]) }

/-- Oracle whose token exchange fails with an `HTTPError` carrying status
code 500 in the response body. -/
def envExchange500 : NordigenEnv :=
  { envBase with
    exchange_token := fun _ => .error (.httpError (.obj [("status_code", .num 500)])) }

/-- Oracle whose details call fails with an `HTTPError` whose response body
parses to a JSON array rather than an object (as happens when the provider
returns a JSON list error page). -/
def envArrayErrorBody : NordigenEnv :=
  { envBase with get_details := fun _ => .error (.httpError (.arr [])) }

/-- A bank account as freshly constructed, before any fetch. -/
def plainAccount : BankAccount :=
  { account_id := .str "acc1", name := none, status := none, currency := none, balances := [] }

/-- Oracle returning a requisition with two linked account ids. -/
def envTwoAccounts : NordigenEnv :=
  { envBase with
    get_requisition_by_id := fun _ =>
      .ok (.obj [("institution_id", .str "inst"), ("reference", .str "r"),
                 ("status", .str "LN"), ("accounts", .arr [.str "acc1", .str "acc2"])]) }

/-- Oracle with a successful token-generation response
`\x7baccess: "a1", refresh: "r1"\x7d`. -/
def envTokenPair : NordigenEnv :=
  { envBase with generate_token := .ok (.obj [("access", .str "a1"), ("refresh", .str "r1")]) }

/-- Oracle whose exchange fails with status 401 and whose generation
succeeds. -/
def envExchange401 : NordigenEnv :=
  { envTokenPair with
    exchange_token := fun _ => .error (.httpError (.obj [("status_code", .num 401)])) }

/-- Oracle whose details response has an empty nested `account` object and
whose balances response has one entry that is an empty object. -/
def envSparseResponses : NordigenEnv :=
  { envBase with
    get_details := fun _ => .ok (.obj [("account", .obj [])])
    get_balances := fun _ => .ok (.obj [("balances", .arr [.obj []])]) }

/-- Oracle whose balances response has two entries. -/
def envBalancesTwo : NordigenEnv :=
  { envBase with
    get_balances := fun _ =>
      .ok (.obj [("balances", .arr
        [.obj [("balanceType", .str "interimAvailable"),
               ("balanceAmount", .obj [("amount", .str "1.50"), ("currency", .str "EUR")])],
         .obj [("balanceType", .str "expected"),
               ("balanceAmount", .obj [("amount", .num 2), ("currency", .str "EUR")])]])]) }

/-- Oracle whose balances response has a single entry. -/
def envBalancesOne : NordigenEnv :=
  { envBase with
    get_balances := fun _ =>
      .ok (.obj [("balances", .arr
        [.obj [("balanceType", .str "closingBooked"),
               ("balanceAmount", .obj [("amount", .str "7"), ("currency", .str "GBP")])]])]) }

/-- Oracle whose balances call itself raises a generic request failure. -/
def envBalancesCallFails : NordigenEnv :=
  { envBase with get_balances := fun _ => .error (.other "boom") }

/-- Oracle whose balances response has a well-formed first entry, a second
entry whose `amount` is JSON `null` (so `float(None)` raises `TypeError`),
and a third entry after the failing one. -/
def envBalancesMidFailure : NordigenEnv :=
  { envBase with
    get_balances := fun _ =>
      .ok (.obj [("balances", .arr
        [.obj [("balanceType", .str "interimAvailable"),
               ("balanceAmount", .obj [("amount", .str "1.50"), ("currency", .str "EUR")])],
         .obj [("balanceAmount", .obj [("amount", .null)])],
         .obj []])]) }

/-- An account already holding one balance record from an earlier refresh. -/
def accountWithOldBalance : BankAccount :=
  { plainAccount with
    balances := [{ balanceType := .str "old", amount := 9, currency := .str "GBP" }] }

/-- The account state after refreshing against `envBalancesTwo`. -/
def accountAfterTwoBalances : BankAccount :=
  { plainAccount with
    balances :=
      [{ balanceType := .str "interimAvailable", amount := mkRat 3 2, currency := .str "EUR" },
       { balanceType := .str "expected", amount := 2, currency := .str "EUR" }] }

/-- The single entry of the `envBalancesOne` response. -/
def singleBalanceEntry : JsonVal :=
  .obj [("balanceType", .str "closingBooked"),
        ("balanceAmount", .obj [("amount", .str "7"), ("currency", .str "GBP")])]

/-! Helper lemmas characterizing runs of the update methods. -/

/-- A successful details fetch with response `\x7baccount: fs\x7d` sets all
three descriptive fields to their looked-up-or-default values. -/
theorem update_account_data_ok (env : NordigenEnv) (a : BankAccount)
    (fs : List (String × JsonVal))
    (h : env.get_details a.account_id = .ok (.obj [("account", .obj fs)])) :
    BankAccount.update_account_data env a =
      ({ a with
          name := some ((lookupField fs "name").getD (.str "Unknown"))
          status := some ((lookupField fs "status").getD (.str "Unknown"))
          currency := some ((lookupField fs "currency").getD (.str "Unknown")) }, none) := by
  unfold BankAccount.update_account_data detailsExtract
  rw [h]
  rfl

/-- An entry with no `balanceAmount` key normalizes to amount `0` and
currency `"Unknown"`. -/
theorem normalizeBalance_no_amount (fs : List (String × JsonVal))
    (h : lookupField fs "balanceAmount" = none) :
    normalizeBalance (.obj fs) =
      .ok { balanceType := (lookupField fs "balanceType").getD (.str "Unknown")
            amount := 0
            currency := .str "Unknown" } := by
  unfold normalizeBalance
  simp only [pyGetD, h, Option.getD, lookupField, pyFloat]

/-- A run of `update_balance_data` whose fetch, `balances` extraction and
iteration succeed is fully described by `processBalances` on the entries. -/
theorem update_balance_data_run (env : NordigenEnv) (a : BankAccount) (resp balv : JsonVal)
    (entries : List JsonVal)
    (h1 : env.get_balances a.account_id = .ok resp)
    (h2 : pyGetD resp "balances" (.arr []) = .ok balv)
    (h3 : pyIter balv = .ok entries) :
    BankAccount.update_balance_data env a =
      ({ a with balances := (processBalances entries []).1 },
        (processBalances entries []).2.map
          (wrapExc "Error retrieving account balances: "
            "Unexpected error while fetching account balances: ")) := by
  unfold BankAccount.update_balance_data
  rw [h1]
  dsimp only
  rw [h2]
  dsimp only
  rw [h3]
  dsimp only
  rcases hp : processBalances entries [] with ⟨recs, exc⟩
  cases exc <;> rfl

/-- A loop run that finishes without an exception produced one record per
entry, appended to the accumulator. -/
theorem processBalances_none_length (entries : List JsonVal) (acc : List BalanceRecord)
    (h : (processBalances entries acc).2 = none) :
    (processBalances entries acc).1.length = acc.length + entries.length := by
  induction entries generalizing acc with
  | nil => simp [processBalances]
  | cons b rest ih =>
    unfold processBalances at h ⊢
    cases hb : normalizeBalance b with
    | ok r =>
      rw [hb] at h
      dsimp only at h ⊢
      have hx := ih (acc ++ [r]) h
      simp at hx ⊢
      omega
    | error e =>
      rw [hb] at h
      simp at h

/-- A loop over a prefix that fully normalizes followed by a failing entry
stops at the failing entry, keeping exactly the prefix's records. -/
theorem processBalances_error_append (pre : List JsonVal) (acc recs : List BalanceRecord)
    (hpre : processBalances pre acc = (recs, none)) (bad : JsonVal) (rest : List JsonVal)
    (e : PyExc) (hbad : normalizeBalance bad = .error e) :
    processBalances (pre ++ bad :: rest) acc = (recs, some e) := by
  induction pre generalizing acc with
  | nil =>
    unfold processBalances at hpre
    cases hpre
    unfold processBalances
    simp only [List.nil_append]
    rw [hbad]
  | cons b pre2 ih =>
    rw [List.cons_append]
    unfold processBalances at hpre ⊢
    cases hb : normalizeBalance b with
    | ok r =>
      rw [hb] at hpre
      dsimp only at hpre ⊢
      exact ih (acc ++ [r]) hpre
    | error e2 =>
      rw [hb] at hpre
      simp at hpre

/-- Claim C1: with a requisition whose `status` is `"EX"`, manager
construction fails with a `NordigenAPIError` of `status_code` 428 and no
account is constructed.  The second half holds (the accounts list is empty),
but the 428 `NordigenAPIError` raised inside the `try` of
`_initialize_accounts` is caught by that method's own `except Exception`
clause and re-raised with message only: the surfaced error has
`status_code = none`, not 428. -/
theorem c1_expired_status_swallowed :
    BankAccountManager.init envExpiredReq "req1" false =
      ({ requisition_id := "req1", accounts := [], institution_id := none, reference := none },
        some (.nordigenError
          { message := "Unexpected error during requisition initialization: Access to accounts has expired as set in End User Agreement. Connect the accounts again with a new requisition."
            status_code := none
            response_body := none })) := rfl

/-- Claim C2: with a requisition whose `accounts` list is empty, manager
construction fails with a `NordigenAPIError` of `status_code` 410 and the
full requisition record as body.  As with C1, the 410 `NordigenAPIError`
raised inside the `try` is caught by the `except Exception` clause and
re-raised with message only: the surfaced error has `status_code = none` and
`response_body = none`. -/
theorem c2_empty_accounts_status_swallowed :
    BankAccountManager.init envEmptyAccountsReq "req1" false =
      ({ requisition_id := "req1", accounts := [],
         institution_id := some (.str "inst"), reference := some (.str "r") },
        some (.nordigenError
          { message := "Unexpected error during requisition initialization: No accounts found for the given requisition ID. Ensure that bank authorization has been completed."
            status_code := none
            response_body := none })) := rfl

/-- Claim C3: with a refresh token whose exchange fails with a non-401
status, `create_nordigen_client` fails with a `NordigenAPIError` carrying
the remote status code and body.  In fact the `NordigenAPIError` raised in
the inner `except HTTPError` handler (which does carry status 500 and the
body) sits inside the outer `try` and is caught by the outer
`except Exception` clause, which re-raises with message only: the surfaced
error has `status_code = none` and `response_body = none`. -/
theorem c3_exchange_error_status_swallowed :
    create_nordigen_client envExchange500 "sid" "sk" (some "rt") =
      .error (.nordigenError
        { message := "Unexpected error obtaining access token: Error exchanging token: \x7b\x27status_code\x27: 500\x7d"
          status_code := none
          response_body := none }) := rfl

/-- Claim C4, counterexample: with accounts `["acc1","acc2"]` and
`fetch_data = false`, the two constructed accounts have `name = None` (the
`__init__` placeholder), not the string `"Unknown"`: the `"Unknown"` default
is applied only inside `update_account_data`, which does not run here. -/
theorem c4_unset_name_counterexample :
    (BankAccountManager.init envTwoAccounts "req1" false).1.accounts.map BankAccount.name
      = [none, none] ∧
    (BankAccountManager.init envTwoAccounts "req1" false).1.accounts.map BankAccount.name
      ≠ [some (.str "Unknown"), some (.str "Unknown")] := by
  refine ⟨rfl, ?_⟩
  intro h
  rw [show (BankAccountManager.init envTwoAccounts "req1" false).1.accounts.map BankAccount.name
      = [none, none] from rfl] at h
  simp at h

/-- Claim C4 as amended: for every requisition response carrying accounts
`["acc1","acc2"]` and a non-expired status, construction with
`fetch_data = false` yields exactly two accounts, in response order, whose
`name`, `status` and `currency` are all unset (`None`, not `"Unknown"`) and
whose balances are empty; no detail or balance fetch is performed (the
conclusion holds for arbitrary detail/balance oracles). -/
theorem c4_two_accounts_unset_names (env : NordigenEnv) (rid : String) (iv rv sv : JsonVal)
    (hreq : env.get_requisition_by_id rid =
      .ok (.obj [("institution_id", iv), ("reference", rv), ("status", sv),
                 ("accounts", .arr [.str "acc1", .str "acc2"])]))
    (hst : pyEq sv (.str "EX") = false) :
    BankAccountManager.init env rid false =
      ({ requisition_id := rid
         accounts :=
           [{ account_id := .str "acc1", name := none, status := none, currency := none, balances := [] },
            { account_id := .str "acc2", name := none, status := none, currency := none, balances := [] }]
         institution_id := some iv
         reference := some rv }, none) := by
  unfold BankAccountManager.init BankAccountManager.initialize_accounts
  rw [hreq]
  simp [pyGet, pyGetD, lookupField, optPyEq, hst, pyTruthy, pyIter, initAccountsLoop,
    BankAccount.init]

/-- Claim C4 witness: the amended theorem applied to the concrete
two-account oracle. -/
theorem c4_two_accounts_unset_names_witness :
    BankAccountManager.init envTwoAccounts "req1" false =
      ({ requisition_id := "req1"
         accounts :=
           [{ account_id := .str "acc1", name := none, status := none, currency := none, balances := [] },
            { account_id := .str "acc2", name := none, status := none, currency := none, balances := [] }]
         institution_id := some (.str "inst")
         reference := some (.str "r") }, none) :=
  c4_two_accounts_unset_names envTwoAccounts "req1" (.str "inst") (.str "r") (.str "LN") rfl rfl

/-- Claim C5: with no refresh token and a successful token generation
returning access `a` and refresh `r`, the returned client carries token `a`
and the new refresh token `r` is returned (the refresh slot is populated on
this path). -/
theorem c5_generate_path_returns_tokens (env : NordigenEnv) (sid sk : String) (a r : JsonVal)
    (hgen : env.generate_token = .ok (.obj [("access", a), ("refresh", r)])) :
    create_nordigen_client env sid sk none =
      .ok ({ secret_id := sid, secret_key := sk, token := some a }, some r) := by
  unfold create_nordigen_client tokenAttempt generateTokenPath
  rw [hgen]
  rfl

/-- Claim C5 witness: the theorem applied to the concrete oracle. -/
theorem c5_generate_path_returns_tokens_witness :
    create_nordigen_client envTokenPair "sid" "sk" none =
      .ok ({ secret_id := "sid", secret_key := "sk", token := some (.str "a1") }, some (.str "r1")) :=
  c5_generate_path_returns_tokens envTokenPair "sid" "sk" (.str "a1") (.str "r1") rfl

/-- Claim C6: with a (non-empty) refresh token whose exchange fails with an
`HTTPError` whose body reports status code 401, `create_nordigen_client`
falls back to full token generation and returns the newly issued refresh
token, exactly as on the no-token path. -/
theorem c6_fallback_on_401 (env : NordigenEnv) (sid sk rt : String) (a r : JsonVal)
    (bodyFs : List (String × JsonVal))
    (hrt : rt.isEmpty = false)
    (hex : env.exchange_token rt = .error (.httpError (.obj bodyFs)))
    (hsc : optPyEq (lookupField bodyFs "status_code") (.num 401) = true)
    (hgen : env.generate_token = .ok (.obj [("access", a), ("refresh", r)])) :
    create_nordigen_client env sid sk (some rt) =
      .ok ({ secret_id := sid, secret_key := sk, token := some a }, some r) := by
  unfold create_nordigen_client tokenAttempt generateTokenPath
  simp only [Option.getD, pyTruthy, hrt, Bool.not_false, Bool.not_true, if_false, hex, hgen]
  simp only [bind, Except.bind, pyGet, hsc, if_true]
  rfl

/-- Claim C6 witness: the theorem applied to the concrete oracle. -/
theorem c6_fallback_on_401_witness :
    create_nordigen_client envExchange401 "sid" "sk" (some "rt") =
      .ok ({ secret_id := "sid", secret_key := "sk", token := some (.str "a1") }, some (.str "r1")) :=
  c6_fallback_on_401 envExchange401 "sid" "sk" "rt" (.str "a1") (.str "r1")
    [("status_code", .num 401)] rfl rfl rfl rfl

/-- Claim C9: every public operation surfaces only `NordigenAPIError`.  A
direct `update_account_data` call whose `HTTPError` carries a non-dict JSON
body refutes this: the `except HTTPError` handler itself evaluates
`http_err.response.json().get("status_code")`, which raises
`AttributeError` inside the handler, and that exception propagates to the
caller unwrapped (no enclosing `try` remains). -/
theorem c9_non_dict_error_body_escapes_unwrapped :
    (BankAccount.update_account_data envArrayErrorBody plainAccount).2 =
      some (.other ("AttributeError: object has no attribute " ++ "\x27" ++ "get"
        ++ "\x27 (key " ++ "\x27" ++ "status_code" ++ "\x27)")) := rfl

/-- Claim C7: missing optional fields default independently, without
failing.  Four parts: (1) a details response whose nested `account` object
lacks `name`/`status`/`currency` yields `"Unknown"` for each missing field
and no exception; (2) a successfully normalized balance entry lacking
`balanceType`, or whose nested amount object lacks `currency`, gets
`"Unknown"` there; (3) an entry with no `balanceAmount` at all normalizes
with amount `0.00` and currency `"Unknown"`; (4) a balance refresh whose
single entry has no `balanceAmount` stores exactly that defaulted record. -/
theorem c7_missing_fields_default_unknown :
    (∀ (env : NordigenEnv) (a : BankAccount) (fs : List (String × JsonVal)),
      env.get_details a.account_id = .ok (.obj [("account", .obj fs)]) →
        (BankAccount.update_account_data env a).2 = none ∧
        (lookupField fs "name" = none →
          (BankAccount.update_account_data env a).1.name = some (.str "Unknown")) ∧
        (lookupField fs "status" = none →
          (BankAccount.update_account_data env a).1.status = some (.str "Unknown")) ∧
        (lookupField fs "currency" = none →
          (BankAccount.update_account_data env a).1.currency = some (.str "Unknown"))) ∧
    (∀ (fs : List (String × JsonVal)) (r : BalanceRecord),
      normalizeBalance (.obj fs) = .ok r →
        (lookupField fs "balanceType" = none → r.balanceType = .str "Unknown") ∧
        (∀ afs, lookupField fs "balanceAmount" = some (.obj afs) →
          lookupField afs "currency" = none → r.currency = .str "Unknown")) ∧
    (∀ (fs : List (String × JsonVal)), lookupField fs "balanceAmount" = none →
      ∃ r, normalizeBalance (.obj fs) = .ok r ∧ r.amount = 0 ∧ r.currency = .str "Unknown") ∧
    (∀ (env : NordigenEnv) (a : BankAccount) (fs : List (String × JsonVal)),
      env.get_balances a.account_id = .ok (.obj [("balances", .arr [.obj fs])]) →
      lookupField fs "balanceAmount" = none →
        BankAccount.update_balance_data env a =
          ({ a with balances :=
              [{ balanceType := (lookupField fs "balanceType").getD (.str "Unknown")
                 amount := 0
                 currency := .str "Unknown" }] }, none)) := by
  refine ⟨?_, ?_, ?_, ?_⟩
  · intro env a fs h
    rw [update_account_data_ok env a fs h]
    refine ⟨rfl, ?_, ?_, ?_⟩ <;> intro hm <;> simp [hm]
  · intro fs r hok
    unfold normalizeBalance at hok
    simp only [pyGetD] at hok
    cases hba : lookupField fs "balanceAmount" with
    | none =>
      rw [hba] at hok
      simp only [Option.getD_none, pyGetD, lookupField, pyFloat] at hok
      cases hok
      constructor
      · intro hbt; simp [hbt]
      · intro afs hba2
        cases hba2
    | some v =>
      rw [hba] at hok
      simp only [Option.getD_some] at hok
      cases v with
      | obj afs =>
        simp only [pyGetD] at hok
        cases hf : pyFloat ((lookupField afs "amount").getD (.num 0)) with
        | error e => rw [hf] at hok; cases hok
        | ok q =>
          rw [hf] at hok
          cases hok
          constructor
          · intro hbt; simp [hbt]
          · intro afs2 hba2 hcur
            cases hba2
            simp [hcur]
      | null => simp [pyGetD] at hok
      | bool b => simp [pyGetD] at hok
      | num q => simp [pyGetD] at hok
      | str s => simp [pyGetD] at hok
      | arr xs => simp [pyGetD] at hok
  · intro fs h
    exact ⟨_, normalizeBalance_no_amount fs h, rfl, rfl⟩
  · intro env a fs hresp hnoamt
    rw [update_balance_data_run env a (.obj [("balances", .arr [.obj fs])]) (.arr [.obj fs])
      [.obj fs] hresp rfl rfl]
    rw [show processBalances [.obj fs] [] =
        ([{ balanceType := (lookupField fs "balanceType").getD (.str "Unknown")
            amount := 0
            currency := .str "Unknown" }], none) from by
      unfold processBalances
      rw [normalizeBalance_no_amount fs hnoamt]
      rfl]
    rfl

/-- Claim C7 witness: the empty `account` object defaults all three
descriptive fields, and the empty balance entry defaults amount and
currency. -/
theorem c7_missing_fields_default_unknown_witness :
    (BankAccount.update_account_data envSparseResponses plainAccount).2 = none ∧
    (BankAccount.update_account_data envSparseResponses plainAccount).1.name = some (.str "Unknown") ∧
    (∃ r, normalizeBalance (.obj []) = .ok r ∧ r.amount = 0 ∧ r.currency = .str "Unknown") ∧
    BankAccount.update_balance_data envSparseResponses plainAccount =
      ({ plainAccount with balances :=
          [{ balanceType := .str "Unknown", amount := 0, currency := .str "Unknown" }] }, none) :=
  ⟨(c7_missing_fields_default_unknown.1 envSparseResponses plainAccount [] rfl).1,
   (c7_missing_fields_default_unknown.1 envSparseResponses plainAccount [] rfl).2.1 rfl,
   c7_missing_fields_default_unknown.2.2.1 [] rfl,
   c7_missing_fields_default_unknown.2.2.2 envSparseResponses plainAccount [] rfl rfl⟩

/-- Claim C8: after two consecutive successful balance refreshes, the
balance list holds exactly one record per entry of the latest response: its
length is the latest response's entry count (never the sum of the two), and
the list is a function of the latest entries alone, so nothing from the
earlier refresh survives. -/
theorem c8_balances_fully_replaced (env env2 : NordigenEnv) (a a1 a2 : BankAccount)
    (resp balv : JsonVal) (entries2 : List JsonVal)
    (h1 : BankAccount.update_balance_data env a = (a1, none))
    (hresp : env2.get_balances a1.account_id = .ok resp)
    (hbal : pyGetD resp "balances" (.arr []) = .ok balv)
    (hiter : pyIter balv = .ok entries2)
    (h2 : BankAccount.update_balance_data env2 a1 = (a2, none)) :
    a2.balances.length = entries2.length ∧
    a2.balances = (processBalances entries2 []).1 := by
  rw [update_balance_data_run env2 a1 resp balv entries2 hresp hbal hiter] at h2
  have hfst : ({ a1 with balances := (processBalances entries2 []).1 } : BankAccount) = a2 :=
    congrArg Prod.fst h2
  have hsnd := congrArg Prod.snd h2
  simp only at hsnd
  have hnone : (processBalances entries2 []).2 = none := by
    cases ho : (processBalances entries2 []).2 with
    | none => rfl
    | some e => rw [ho] at hsnd; simp at hsnd
  have hlen := processBalances_none_length entries2 [] hnone
  constructor
  · rw [← hfst]
    simpa using hlen
  · rw [← hfst]

/-- Claim C8 witness: the theorem applied to a first refresh producing two
records and a second refresh whose response has a single entry. -/
theorem c8_balances_fully_replaced_witness :
    (BankAccount.update_balance_data envBalancesOne accountAfterTwoBalances).1.balances.length =
      [singleBalanceEntry].length ∧
    (BankAccount.update_balance_data envBalancesOne accountAfterTwoBalances).1.balances =
      (processBalances [singleBalanceEntry] []).1 :=
  c8_balances_fully_replaced envBalancesTwo envBalancesOne plainAccount accountAfterTwoBalances
    ((BankAccount.update_balance_data envBalancesOne accountAfterTwoBalances).1)
    (.obj [("balances", .arr [singleBalanceEntry])]) (.arr [singleBalanceEntry])
    [singleBalanceEntry] rfl rfl rfl rfl rfl

/-- Claim C10: failure states of `update_balance_data`.  (1) When the
balances endpoint call itself raises, the account is left exactly as it was
(the clear runs only after a successful fetch) and the wrapped error is
raised.  (2) When normalization of the k-th entry fails, the earlier list
has already been cleared and the account is left holding exactly the k-1
records normalized before the failure, with the wrapped error raised. -/
theorem c10_failure_state_of_balance_refresh :
    (∀ (env : NordigenEnv) (a : BankAccount) (e : PyExc),
      env.get_balances a.account_id = .error e →
        (BankAccount.update_balance_data env a).1 = a ∧
        (BankAccount.update_balance_data env a).2 =
          some (wrapExc "Error retrieving account balances: "
            "Unexpected error while fetching account balances: " e)) ∧
    (∀ (env : NordigenEnv) (a : BankAccount) (resp balv : JsonVal)
      (pre rest : List JsonVal) (bad : JsonVal) (recs : List BalanceRecord) (e : PyExc),
      env.get_balances a.account_id = .ok resp →
      pyGetD resp "balances" (.arr []) = .ok balv →
      pyIter balv = .ok (pre ++ bad :: rest) →
      processBalances pre [] = (recs, none) →
      normalizeBalance bad = .error e →
        (BankAccount.update_balance_data env a).1.balances = recs ∧
        (BankAccount.update_balance_data env a).2 =
          some (wrapExc "Error retrieving account balances: "
            "Unexpected error while fetching account balances: " e)) := by
  constructor
  · intro env a e h
    unfold BankAccount.update_balance_data
    rw [h]
    exact ⟨rfl, rfl⟩
  · intro env a resp balv pre rest bad recs e hresp hbal hiter hpre hbad
    rw [update_balance_data_run env a resp balv (pre ++ bad :: rest) hresp hbal hiter]
    rw [processBalances_error_append pre [] recs hpre bad rest e hbad]
    exact ⟨rfl, rfl⟩

/-- Claim C10 witness: a failing endpoint call leaves the old record in
place, and a mid-loop `float(None)` failure leaves exactly the first
entry's record with the prior list gone. -/
theorem c10_failure_state_of_balance_refresh_witness :
    ((BankAccount.update_balance_data envBalancesCallFails accountWithOldBalance).1 =
        accountWithOldBalance ∧
      (BankAccount.update_balance_data envBalancesCallFails accountWithOldBalance).2 =
        some (wrapExc "Error retrieving account balances: "
          "Unexpected error while fetching account balances: " (.other "boom"))) ∧
    ((BankAccount.update_balance_data envBalancesMidFailure accountWithOldBalance).1.balances =
        [{ balanceType := .str "interimAvailable", amount := mkRat 3 2, currency := .str "EUR" }] ∧
      (BankAccount.update_balance_data envBalancesMidFailure accountWithOldBalance).2 =
        some (wrapExc "Error retrieving account balances: "
          "Unexpected error while fetching account balances: "
          (.other "TypeError: float() argument must be a string or a real number"))) :=
  ⟨c10_failure_state_of_balance_refresh.1 envBalancesCallFails accountWithOldBalance
      (.other "boom") rfl,
   c10_failure_state_of_balance_refresh.2 envBalancesMidFailure accountWithOldBalance
      (.obj [("balances", .arr
        [.obj [("balanceType", .str "interimAvailable"),
               ("balanceAmount", .obj [("amount", .str "1.50"), ("currency", .str "EUR")])],
         .obj [("balanceAmount", .obj [("amount", .null)])],
         .obj []])])
      (.arr
        [.obj [("balanceType", .str "interimAvailable"),
               ("balanceAmount", .obj [("amount", .str "1.50"), ("currency", .str "EUR")])],
         .obj [("balanceAmount", .obj [("amount", .null)])],
         .obj []])
      [.obj [("balanceType", .str "interimAvailable"),
             ("balanceAmount", .obj [("amount", .str "1.50"), ("currency", .str "EUR")])]]
      [.obj []]
      (.obj [("balanceAmount", .obj [("amount", .null)])])
      [{ balanceType := .str "interimAvailable", amount := mkRat 3 2, currency := .str "EUR" }]
      (.other "TypeError: float() argument must be a string or a real number")
      rfl rfl rfl rfl rfl⟩
